import Mathlib

/-!
Verification of the FST wallet-signature authentication core.

The definitions below are a shallow embedding of the three auth
implementations found in the repository:

* `apps/api/src/auth-nonce.ts` — the in-memory `Map`-based nonce store and
  its `POST /auth/nonce` and `POST /auth/verify` handlers
  (`issueNonce`, `verifyNonce`);
* `apps/api/src/server.ts` — the cookie-based `GET /auth/nonce` and
  `POST /auth/verify` handlers (`serverNonceHandler`, `serverVerify`);
* `apps/api/src/routes/auth.ts` — the Prisma-session-based nonce flow
  (`createAndStoreNonce`, `part003Nonce`, `part003Verify`) together with
  `apps/api/src/utils/solana.ts` (`verifySolanaSignatureBase58`,
  `verifySolanaSignatureBase64`).

External primitives that the repository only calls (tweetnacl detached
signature verification, `Buffer.from(_, "base64")`, `atob`, `jwt.verify`)
are modelled as oracle function parameters.  `bs58.decode` and
`new PublicKey(address).toBytes()` are implemented concretely
(`b58decode`, `solanaPubkeyBytes`), as is UTF-8 encoding (`utf8Bytes`).
Timestamps are `Nat` milliseconds, matching `Date.now()`.
-/

/-! ## Base58 decoding (`bs58.decode`) and Solana public keys -/

/-- The bitcoin base58 alphabet used by the `bs58` npm package. -/
def b58Alphabet : List Char :=
  "123456789ABCDEFGHJKLMNPQRSTUVWXYZabcdefghijkmnopqrstuvwxyz".data

/-- Value of one base58 digit; `none` for a character outside the alphabet. -/
def b58Val (c : Char) : Option Nat :=
  b58Alphabet.findIdx? (fun d => d = c)

/-- Big-endian byte representation, with explicit fuel so that the
recursion is structural. -/
def natToBEBytesAux : Nat → Nat → List Nat
  | 0, _ => []
  | fuel + 1, n => if n = 0 then [] else natToBEBytesAux fuel (n / 256) ++ [n % 256]

/-- Big-endian byte representation of a natural number (empty for zero).
`n` itself is always enough fuel since the byte count of `n` is at
most `n`. -/
def natToBEBytes (n : Nat) : List Nat := natToBEBytesAux n n

/-- Decode a base58 string to bytes exactly as `bs58.decode` does: fail on a
character outside the alphabet, map each leading `1` to a zero byte, and
read the remainder as a big-endian base-58 number. -/
def b58decode (s : String) : Option (List Nat) :=
  let cs := s.data
  if cs.all (fun c => (b58Val c).isSome) then
    let val := cs.foldl (fun acc c => acc * 58 + ((b58Val c).getD 0)) 0
    let zeros := (cs.takeWhile (fun c => c = '1')).length
    some (List.replicate zeros 0 ++ natToBEBytes val)
  else none

/-- Model of `new PublicKey(address).toBytes()` from `@solana/web3.js`: the
address must be base58 and decode to exactly 32 bytes, otherwise the
constructor throws (modelled as `none`). -/
def solanaPubkeyBytes (s : String) : Option (List Nat) :=
  match b58decode s with
  | none => none
  | some bs => if bs.length = 32 then some bs else none

/-- UTF-8 bytes of a string, as produced by `new TextEncoder().encode(s)`. -/
def utf8Bytes (s : String) : List Nat :=
  s.toUTF8.toList.map (fun b => b.toNat)

/-! ## JavaScript `Map` keyed by strings (also models the Prisma table
keyed by a unique id), as an association list with distinct keys. -/

/-- Association-list model of a JS `Map<string, α>` (and of a Prisma table
looked up by its unique id column). -/
abbrev JsMap (α : Type) := List (String × α)

/-- `m.get(k)`. -/
def JsMap.get {α : Type} : JsMap α → String → Option α
  | [], _ => none
  | (k1, v) :: rest, k => if k1 = k then some v else JsMap.get rest k

/-- `m.set(k, v)` (also Prisma `upsert` on the unique key). -/
def JsMap.set {α : Type} : JsMap α → String → α → JsMap α
  | [], k, v => [(k, v)]
  | (k1, v1) :: rest, k, v =>
    if k1 = k then (k, v) :: rest else (k1, v1) :: JsMap.set rest k v

/-- `m.delete(k)` (also Prisma `delete` on the unique key). -/
def JsMap.delete {α : Type} : JsMap α → String → JsMap α
  | [], _ => []
  | (k1, v1) :: rest, k =>
    if k1 = k then JsMap.delete rest k else (k1, v1) :: JsMap.delete rest k

/-- The keys of the map, in order. -/
def JsMap.keys {α : Type} : JsMap α → List String
  | [] => []
  | (k1, _) :: rest => k1 :: JsMap.keys rest

/-! ## The Map-based handlers of `apps/api/src/auth-nonce.ts` -/

/-- One record of the global `nonces` map of auth-nonce.ts, line 12:
`{ nonce: string; expiresAt: number }`, keyed by wallet address. -/
structure NonceRec where
  nonce : String
  expiresAt : Nat
deriving Repr, DecidableEq

/-- The global `nonces` map of auth-nonce.ts. -/
abbrev NonceStore := JsMap NonceRec

/-- `NONCE_TTL_MS = 5 * 60 * 1000` (auth-nonce.ts, line 11). -/
def NONCE_TTL_MS : Nat := 5 * 60 * 1000

/-- Outcome of the `POST /auth/nonce` handler of auth-nonce.ts. -/
inductive IssueResult
  /-- 400 `address required` (line 40). -/
  | missingAddress
  /-- 400 `Invalid walletAddress` (line 46): `new PublicKey(address)` threw. -/
  | invalidAddress
  /-- 200 with the returned nonce (lines 53 and 58). -/
  | ok (nonce : String)
deriving Repr, DecidableEq

/-- The `POST /auth/nonce` handler of auth-nonce.ts (lines 25-62) after body
parsing: validate the address as a Solana public key, reuse an unexpired
stored nonce, otherwise store and return the freshly generated one
(`fresh` stands for the `makeNonce()` random value, `now` for
`Date.now()`).  Returns the updated `nonces` map and the response. -/
def issueNonce (store : NonceStore) (now : Nat) (address fresh : String) :
    NonceStore × IssueResult :=
  if address = "" then (store, IssueResult.missingAddress)
  else if (solanaPubkeyBytes address).isNone then (store, IssueResult.invalidAddress)
  else
    match JsMap.get store address with
    | some existing =>
      if existing.expiresAt > now then (store, IssueResult.ok existing.nonce)
      else (JsMap.set store address ⟨fresh, now + NONCE_TTL_MS⟩, IssueResult.ok fresh)
    | none => (JsMap.set store address ⟨fresh, now + NONCE_TTL_MS⟩, IssueResult.ok fresh)

/-- Outcome of the `POST /auth/verify` handler of auth-nonce.ts. -/
inductive VerifyResult
  /-- 400, thrown error caught at line 128 (bad public key or bad base58). -/
  | badRequest
  /-- 400 `Nonce not found. Get a new nonce.` (line 87). -/
  | nonceNotFound
  /-- 400 `Nonce expired. Get a new nonce.` (line 90). -/
  | nonceExpired
  /-- 400 `Nonce mismatch` (line 92). -/
  | nonceMismatch
  /-- 401 `Invalid signature` (line 97). -/
  | invalidSignature
  /-- 200 `{ ok: true }` with the auth cookie set (line 126). -/
  | success
deriving Repr, DecidableEq

/-- HTTP status attached to each `POST /auth/verify` outcome, read off the
`res.status(...)` calls of auth-nonce.ts (200 is the express default used
by the success path). -/
def VerifyResult.httpStatus : VerifyResult → Nat
  | VerifyResult.invalidSignature => 401
  | VerifyResult.success => 200
  | _ => 400

/-- The `POST /auth/verify` handler of auth-nonce.ts (lines 70-130) after
body parsing, with tweetnacl detached verification supplied as the oracle
`verifyDetached` (message bytes, signature bytes, public-key bytes).
Mirrors the source order: `new PublicKey(address)` first, then the nonce
lookup, expiry check (deleting the record), mismatch check, base58 decode
of the signature, signature verification, and — only on success — the
one-time-use delete of line 117. -/
def verifyNonce (verifyDetached : List Nat → List Nat → List Nat → Bool)
    (store : NonceStore) (now : Nat) (address signature nonce : String) :
    NonceStore × VerifyResult :=
  match solanaPubkeyBytes address with
  | none => (store, VerifyResult.badRequest)
  | some pub =>
    match JsMap.get store address with
    | none => (store, VerifyResult.nonceNotFound)
    | some stored =>
      if stored.expiresAt < now then (JsMap.delete store address, VerifyResult.nonceExpired)
      else if stored.nonce = nonce then
        match b58decode signature with
        | none => (store, VerifyResult.badRequest)
        | some sig =>
          if verifyDetached (utf8Bytes nonce) sig pub then
            (JsMap.delete store address, VerifyResult.success)
          else (store, VerifyResult.invalidSignature)
      else (store, VerifyResult.nonceMismatch)

/-- One request against the auth-nonce.ts routes, for reasoning about
arbitrary interleavings of issuing and verifying. -/
inductive AuthOp
  | issue (now : Nat) (address fresh : String)
  | verify (now : Nat) (address signature nonce : String)

/-- Effect of one request on the `nonces` map. -/
def applyOp (verifyDetached : List Nat → List Nat → List Nat → Bool)
    (store : NonceStore) : AuthOp → NonceStore
  | AuthOp.issue now a f => (issueNonce store now a f).1
  | AuthOp.verify now a s n => (verifyNonce verifyDetached store now a s n).1

/-- The `nonces` map after a sequence of requests. -/
def runOps (verifyDetached : List Nat → List Nat → List Nat → Bool)
    (st0 : NonceStore) (ops : List AuthOp) : NonceStore :=
  ops.foldl (fun st op => applyOp verifyDetached st op) st0

/-- Number of stored challenges for address `a` that are live (unexpired)
at time `now`.  A challenge in the `nonces` map is unconsumed by
construction: consuming is deleting. -/
def liveCount (m : NonceStore) (a : String) (now : Nat) : Nat :=
  (m.filter (fun p => p.1 == a && decide (now < p.2.expiresAt))).length

/-- Number of stored challenges for address `a`, live or not. -/
def JsMap.countKey {α : Type} (m : JsMap α) (a : String) : Nat :=
  (m.filter (fun p => p.1 == a)).length

/-! ## The cookie-based handlers of `apps/api/src/server.ts` -/

/-- Response of the `GET /auth/nonce` handler of server.ts. -/
structure ServerNonceOut where
  status : Nat
  wallet : Option String
  nonce : Option String
  message : Option String
  expiresInSec : Option Nat
deriving Repr, DecidableEq

/-- The `GET /auth/nonce` handler of server.ts (lines 160-182): `fresh`
stands for the `randomUUID()` value, `issuedAt` for
`new Date().toISOString()`.  The handler keeps no server-side state: the
nonce travels in a signed cookie (elided — it is never read back by this
handler) and the response body.  Every call returns the freshly generated
nonce; no previously issued challenge is consulted. -/
def serverNonceHandler (appName wallet fresh issuedAt : String) : ServerNonceOut :=
  if wallet = "" then ⟨400, none, none, none, none⟩
  else
    ⟨200, some wallet, some fresh,
      some (appName ++ " login\n\nWallet: " ++ wallet ++ "\nNonce: " ++ fresh ++
        "\nIssued At: " ++ issuedAt ++ "\n\nBy signing, you prove ownership of this wallet."),
      some 300⟩

/-- Payload of the signed `nonce` cookie of server.ts (`NonceCookiePayload`,
lines 90-98; only the fields the verify handler reads). -/
structure NonceCookieData where
  t : String
  wallet : String
  msg : String
deriving Repr, DecidableEq

/-- The `POST /auth/verify` request of server.ts after the normalization of
lines 187-199: trimmed strings, with `""` for an absent signature field and
`none` for an absent (or falsy) body message / cookie. -/
structure ServerVerifyReq where
  walletAddress : String
  signatureBase58 : String
  signatureBase64 : String
  bodyMessage : Option String
  nonceCookie : Option String
deriving Repr, DecidableEq

/-- Observable outcome of the `POST /auth/verify` handler of server.ts.
`messageUsed` is the message the signature was verified over (success
only), `calledVerifier` records whether control reached the
`nacl.sign.detached.verify` call of line 238, and `tokenTtlDays` is the
lifetime of the issued auth token (`expiresIn: "30d"`, line 246). -/
structure ServerVerifyOut where
  status : Nat
  error : Option String
  messageUsed : Option String
  calledVerifier : Bool
  tokenTtlDays : Option Nat
deriving Repr, DecidableEq

/-- An error response of the server.ts verify handler (no verifier call,
no token). -/
def mkErr (status : Nat) (msg : String) : ServerVerifyOut :=
  ⟨status, some msg, none, false, none⟩

/-- Body-message fallback used when there is no usable cookie. -/
def bodyMsgOrErr : Option String → Except ServerVerifyOut String
  | none => Except.error (mkErr 400 "Missing nonce message")
  | some m => if m = "" then Except.error (mkErr 400 "Missing nonce message") else Except.ok m

/-- Message resolution of server.ts lines 203-216: prefer the signed nonce
cookie; on a cookie that fails `jwt.verify` (oracle `cookieVerify` returns
`none`) fall back to the body message; reject a cookie with the wrong type
tag or wallet.  A missing or empty resulting message is the falsy
`if (!message)` failure. -/
def resolveMessage (cookieVerify : String → Option NonceCookieData)
    (req : ServerVerifyReq) : Except ServerVerifyOut String :=
  match req.nonceCookie with
  | none => bodyMsgOrErr req.bodyMessage
  | some ck =>
    match cookieVerify ck with
    | none => bodyMsgOrErr req.bodyMessage
    | some d =>
      if d.t = "nonce" then
        if d.wallet = req.walletAddress then
          if d.msg = "" then Except.error (mkErr 400 "Missing nonce message")
          else Except.ok d.msg
        else Except.error (mkErr 400 "Wallet mismatch with nonce")
      else Except.error (mkErr 400 "Bad nonce payload")

/-- Signature decoding of server.ts lines 218-231: Base64 (`decodeBase64O`
oracle for `Buffer.from(s, "base64")`) is preferred, then Base58. -/
def decodeSig (decodeBase64O : String → Option (List Nat))
    (req : ServerVerifyReq) : Except ServerVerifyOut (List Nat) :=
  if req.signatureBase64 = "" then
    if req.signatureBase58 = "" then Except.error (mkErr 400 "Missing signature")
    else
      match b58decode req.signatureBase58 with
      | none => Except.error (mkErr 400 "Bad signature (base58)")
      | some sig => Except.ok sig
  else
    match decodeBase64O req.signatureBase64 with
    | none => Except.error (mkErr 400 "Bad signature (base64)")
    | some sig => Except.ok sig

/-- The `POST /auth/verify` handler of server.ts (lines 184-298): resolve
the message (cookie preferred, body fallback), decode the signature,
reject decoded signatures shorter than 64 bytes (`sig.length < 64`,
line 232), base58-decode the wallet address (plain `bs58.decode`,
line 237), verify, and on success issue a 30-day auth token.  The handler
reads and writes no server-side challenge state. -/
def serverVerify (cookieVerify : String → Option NonceCookieData)
    (decodeBase64O : String → Option (List Nat))
    (verifyDetached : List Nat → List Nat → List Nat → Bool)
    (req : ServerVerifyReq) : ServerVerifyOut :=
  if req.walletAddress = "" then mkErr 400 "walletAddress is required"
  else
    match resolveMessage cookieVerify req with
    | Except.error e => e
    | Except.ok message =>
      match decodeSig decodeBase64O req with
      | Except.error e => e
      | Except.ok sig =>
        if sig.length < 64 then mkErr 400 "Signature length invalid"
        else
          match b58decode req.walletAddress with
          | none => mkErr 400 "walletAddress must be base58"
          | some pubkey =>
            if verifyDetached (utf8Bytes message) sig pubkey then
              ⟨200, none, some message, true, some 30⟩
            else ⟨401, some "Invalid signature", none, true, none⟩

/-- A batch of verify requests processed in order.  Because the server.ts
verify handler keeps no server-side challenge state, processing a batch is
just an independent map over the requests. -/
def serverVerifySeq (cookieVerify : String → Option NonceCookieData)
    (decodeBase64O : String → Option (List Nat))
    (verifyDetached : List Nat → List Nat → List Nat → Bool)
    (reqs : List ServerVerifyReq) : List ServerVerifyOut :=
  reqs.map (serverVerify cookieVerify decodeBase64O verifyDetached)

/-! ## The utils/solana.ts verifiers and the routes/auth.ts session flow -/

/-- `verifySolanaSignatureBase58` of apps/api/src/utils/solana.ts
(lines 20-25).  `none` models a thrown exception (`new PublicKey` or
`bs58.decode` failing); `some b` is the boolean returned by
`nacl.sign.detached.verify`, supplied as the oracle `verifyDetached`. -/
def verifySolanaSignatureBase58 (verifyDetached : List Nat → List Nat → List Nat → Bool)
    (address message signature58 : String) : Option Bool :=
  match solanaPubkeyBytes address with
  | none => none
  | some pub =>
    match b58decode signature58 with
    | none => none
    | some sig => some (verifyDetached (utf8Bytes message) sig pub)

/-- `verifySolanaSignatureBase64` of apps/api/src/utils/solana.ts
(lines 27-32), with `atob` plus char-code extraction supplied as the
oracle `atobBytes` (`none` models a thrown exception). -/
def verifySolanaSignatureBase64 (verifyDetached : List Nat → List Nat → List Nat → Bool)
    (atobBytes : String → Option (List Nat))
    (address message signatureB64 : String) : Option Bool :=
  match solanaPubkeyBytes address with
  | none => none
  | some pub =>
    match atobBytes signatureB64 with
    | none => none
    | some sig => some (verifyDetached (utf8Bytes message) sig pub)

/-- One row of the Prisma `Session` table as used by routes/auth.ts for
nonce storage: rows with id `nonce:<address>` hold the challenge text in
`jwtId` (only the fields the handlers read). -/
structure SessionRec where
  userId : String
  jwtId : String
  expiresAt : Nat
deriving Repr, DecidableEq

/-- The `Session` rows, keyed by their unique `id` column. -/
abbrev SessStore := JsMap SessionRec

/-- `createAndStoreNonce` of apps/api/src/routes/auth.ts (lines 23-54):
build the four-line challenge text (`randHex` stands for
`crypto.randomBytes(16).toString("hex")`, `now` for `Date.now()`) and
upsert the `nonce:<address>` session row with a 5-minute expiry.  The
`User` upsert of lines 34-38 touches only the user table and is elided.
A fresh nonce is generated and stored on every call. -/
def createAndStoreNonce (store : SessStore) (now : Nat) (address randHex : String) :
    SessStore × String :=
  let nonce := "Sign in to FST\nAddress: " ++ address ++ "\nNonce: " ++ randHex ++
    "\nTS:" ++ toString now
  (JsMap.set store ("nonce:" ++ address) ⟨address, nonce, now + 5 * 60000⟩, nonce)

/-- Outcome of the `GET /auth/nonce` handler of routes/auth.ts. -/
inductive P3NonceResult
  /-- 400 `address is required` (line 60). -/
  | missingAddress
  /-- 200 `{ nonce }` (line 62). -/
  | ok (nonce : String)
deriving Repr, DecidableEq

/-- The `GET /auth/nonce` handler of routes/auth.ts (lines 57-67): any
non-empty address string is accepted — no public-key validation is
performed before the challenge is created and stored. -/
def part003Nonce (store : SessStore) (now : Nat) (address randHex : String) :
    SessStore × P3NonceResult :=
  if address = "" then (store, P3NonceResult.missingAddress)
  else
    let r := createAndStoreNonce store now address randHex
    (r.1, P3NonceResult.ok r.2)

/-- Outcome of the `POST /auth/verify` handler of routes/auth.ts. -/
inductive P3VerifyResult
  /-- An error response with its HTTP status and message. -/
  | err (status : Nat) (msg : String)
  /-- 200 `{ token, role }` (line 160). -/
  | ok (role : String)
deriving Repr, DecidableEq

/-- The `POST /auth/verify` handler of routes/auth.ts (lines 96-165):
check presence of the fields, look up the `nonce:<address>` session row,
compare the stored challenge text, check expiry (without deleting), run
the base64 verifier and then the base58 one inside one try/catch (a throw
from the first skips the second), and on success delete the row and issue
the token with the env-derived role (`admins` models `ADMIN_ADDRESSES`).
An invalid signature is answered with HTTP 400 (line 150). -/
def part003Verify (verifyDetached : List Nat → List Nat → List Nat → Bool)
    (atobBytes : String → Option (List Nat)) (admins : List String)
    (store : SessStore) (now : Nat)
    (address nonce signatureBase64 signature58 : String) :
    SessStore × P3VerifyResult :=
  if address = "" ∨ nonce = "" ∨ (signatureBase64 = "" ∧ signature58 = "") then
    (store, P3VerifyResult.err 400 "address, nonce and signature are required")
  else
    match JsMap.get store ("nonce:" ++ address) with
    | none => (store, P3VerifyResult.err 400 "nonce invalid or expired")
    | some stored =>
      if stored.jwtId = nonce then
        if stored.expiresAt < now then (store, P3VerifyResult.err 400 "nonce invalid or expired")
        else
          let first := if signatureBase64 = "" then some false
            else verifySolanaSignatureBase64 verifyDetached atobBytes address nonce signatureBase64
          let ok := match first with
            | none => false
            | some o1 =>
              if o1 then true
              else if signature58 = "" then false
              else (verifySolanaSignatureBase58 verifyDetached address nonce signature58).getD false
          if ok then
            (JsMap.delete store ("nonce:" ++ address),
             P3VerifyResult.ok (if admins.contains address then "ADMIN" else "USER"))
          else (store, P3VerifyResult.err 400 "invalid signature")
      else (store, P3VerifyResult.err 400 "nonce invalid or expired")

/-! ## Concrete fixtures used by witnesses and counterexamples -/

/-- The 32-character all-ones base58 string: a valid Solana address
(32 zero bytes — the system program id). -/
def A32 : String := "11111111111111111111111111111111"

/-- A base58 string decoding to a 64-byte (all-zero) signature. -/
def SIG64 : String := "1111111111111111111111111111111111111111111111111111111111111111"

/-- A base58 string decoding to a 65-byte (all-zero) signature. -/
def SIG65 : String := "11111111111111111111111111111111111111111111111111111111111111111"

set_option maxRecDepth 40000

/-! ## Association-list map lemmas -/

theorem JsMap.get_delete_self {α : Type} (m : JsMap α) (k : String) :
    JsMap.get (JsMap.delete m k) k = none := by
  induction m with
  | nil => rfl
  | cons p rest ih =>
    obtain ⟨k1, v1⟩ := p
    by_cases h : k1 = k
    · simpa [JsMap.delete, h] using ih
    · simp [JsMap.delete, JsMap.get, h, ih]

theorem JsMap.get_set_self {α : Type} (m : JsMap α) (k : String) (v : α) :
    JsMap.get (JsMap.set m k v) k = some v := by
  induction m with
  | nil => simp [JsMap.set, JsMap.get]
  | cons p rest ih =>
    obtain ⟨k1, v1⟩ := p
    by_cases h : k1 = k
    · simp [JsMap.set, JsMap.get, h]
    · simp [JsMap.set, JsMap.get, h, ih]

theorem JsMap.mem_keys_set {α : Type} (m : JsMap α) (k x : String) (v : α)
    (h : x ∈ JsMap.keys (JsMap.set m k v)) : x = k ∨ x ∈ JsMap.keys m := by
  induction m with
  | nil => simpa [JsMap.set, JsMap.keys] using h
  | cons p rest ih =>
    obtain ⟨k1, v1⟩ := p
    by_cases hk : k1 = k
    · rw [JsMap.set, if_pos hk, JsMap.keys, List.mem_cons] at h
      rcases h with h | h
      · exact Or.inl h
      · exact Or.inr (by rw [JsMap.keys, List.mem_cons]; exact Or.inr h)
    · rw [JsMap.set, if_neg hk, JsMap.keys, List.mem_cons] at h
      rcases h with h | h
      · exact Or.inr (by rw [JsMap.keys, List.mem_cons]; exact Or.inl h)
      · rcases ih h with h2 | h2
        · exact Or.inl h2
        · exact Or.inr (by rw [JsMap.keys, List.mem_cons]; exact Or.inr h2)

theorem JsMap.keys_nodup_set {α : Type} (m : JsMap α) (k : String) (v : α)
    (h : (JsMap.keys m).Nodup) : (JsMap.keys (JsMap.set m k v)).Nodup := by
  induction m with
  | nil => simp [JsMap.set, JsMap.keys]
  | cons p rest ih =>
    obtain ⟨k1, v1⟩ := p
    rw [JsMap.keys, List.nodup_cons] at h
    by_cases hk : k1 = k
    · rw [JsMap.set, if_pos hk, JsMap.keys, List.nodup_cons]
      exact ⟨hk ▸ h.1, h.2⟩
    · rw [JsMap.set, if_neg hk, JsMap.keys, List.nodup_cons]
      refine ⟨fun hmem => ?_, ih h.2⟩
      rcases JsMap.mem_keys_set rest k k1 v hmem with h2 | h2
      · exact hk h2
      · exact h.1 h2

theorem JsMap.mem_keys_delete {α : Type} (m : JsMap α) (k x : String)
    (h : x ∈ JsMap.keys (JsMap.delete m k)) : x ∈ JsMap.keys m := by
  induction m with
  | nil => simp [JsMap.delete, JsMap.keys] at h
  | cons p rest ih =>
    obtain ⟨k1, v1⟩ := p
    by_cases hk : k1 = k
    · rw [JsMap.delete, if_pos hk] at h
      rw [JsMap.keys, List.mem_cons]
      exact Or.inr (ih h)
    · rw [JsMap.delete, if_neg hk, JsMap.keys, List.mem_cons] at h
      rw [JsMap.keys, List.mem_cons]
      rcases h with h | h
      · exact Or.inl h
      · exact Or.inr (ih h)

theorem JsMap.keys_nodup_delete {α : Type} (m : JsMap α) (k : String)
    (h : (JsMap.keys m).Nodup) : (JsMap.keys (JsMap.delete m k)).Nodup := by
  induction m with
  | nil => simp [JsMap.delete, JsMap.keys]
  | cons p rest ih =>
    obtain ⟨k1, v1⟩ := p
    rw [JsMap.keys, List.nodup_cons] at h
    by_cases hk : k1 = k
    · rw [JsMap.delete, if_pos hk]
      exact ih h.2
    · rw [JsMap.delete, if_neg hk, JsMap.keys, List.nodup_cons]
      exact ⟨fun hmem => h.1 (JsMap.mem_keys_delete rest k k1 hmem), ih h.2⟩


/-! ## Store-shape lemmas for the auth-nonce.ts handlers -/

theorem issueNonce_keys_nodup (store : NonceStore) (now : Nat) (a f : String)
    (h : (JsMap.keys store).Nodup) : (JsMap.keys (issueNonce store now a f).1).Nodup := by
  unfold issueNonce
  split
  · exact h
  · split
    · exact h
    · split
      · split
        · exact h
        · exact JsMap.keys_nodup_set store a _ h
      · exact JsMap.keys_nodup_set store a _ h

theorem verifyNonce_keys_nodup (vd : List Nat → List Nat → List Nat → Bool)
    (store : NonceStore) (now : Nat) (a s n : String)
    (h : (JsMap.keys store).Nodup) :
    (JsMap.keys (verifyNonce vd store now a s n).1).Nodup := by
  unfold verifyNonce
  split
  · exact h
  · split
    · exact h
    · split
      · exact JsMap.keys_nodup_delete store a h
      · split
        · split
          · exact h
          · split
            · exact JsMap.keys_nodup_delete store a h
            · exact h
        · exact h

theorem runOps_keys_nodup (vd : List Nat → List Nat → List Nat → Bool)
    (ops : List AuthOp) :
    ∀ store : NonceStore, (JsMap.keys store).Nodup →
      (JsMap.keys (runOps vd store ops)).Nodup := by
  induction ops with
  | nil => intro store h; exact h
  | cons op rest ih =>
    intro store h
    have h2 : (JsMap.keys (applyOp vd store op)).Nodup := by
      cases op with
      | issue now a f => exact issueNonce_keys_nodup store now a f h
      | verify now a s n => exact verifyNonce_keys_nodup vd store now a s n h
    simpa [runOps, List.foldl] using ih (applyOp vd store op) h2

theorem countKey_eq_zero {α : Type} (m : JsMap α) (a : String)
    (h : a ∉ JsMap.keys m) : JsMap.countKey m a = 0 := by
  induction m with
  | nil => rfl
  | cons p rest ih =>
    obtain ⟨k1, v1⟩ := p
    rw [JsMap.keys, List.mem_cons] at h
    push_neg at h
    have hk : (k1 == a) = false := by
      simpa [beq_iff_eq] using fun hcontra => h.1 hcontra.symm
    simp only [JsMap.countKey, List.filter] at ih ⊢
    rw [hk]
    exact ih h.2

theorem countKey_le_one {α : Type} (m : JsMap α) (a : String)
    (h : (JsMap.keys m).Nodup) : JsMap.countKey m a ≤ 1 := by
  induction m with
  | nil => exact Nat.zero_le 1
  | cons p rest ih =>
    obtain ⟨k1, v1⟩ := p
    rw [JsMap.keys, List.nodup_cons] at h
    by_cases hk : k1 = a
    · have hz : JsMap.countKey rest a = 0 := countKey_eq_zero rest a (hk ▸ h.1)
      simp only [JsMap.countKey, List.filter] at hz ⊢
      rw [show (k1 == a) = true by simpa [beq_iff_eq] using hk]
      simp [hz]
    · simp only [JsMap.countKey, List.filter] at ih ⊢
      rw [show (k1 == a) = false by simpa [beq_iff_eq] using hk]
      exact ih h.2

theorem liveCount_le_countKey (m : NonceStore) (a : String) (now : Nat) :
    liveCount m a now ≤ JsMap.countKey m a := by
  induction m with
  | nil => exact Nat.le_refl 0
  | cons p rest ih =>
    simp only [liveCount, JsMap.countKey, List.filter] at ih ⊢
    cases h1 : (p.1 == a) <;> cases h2 : decide (now < p.2.expiresAt) <;>
      simp [h1, h2] <;> omega

/-! ## Claim theorems -/

/-- C5: for every address and every sequence of issue/verify operations
against the auth-nonce.ts handlers, the `nonces` map never holds two live
(unexpired, hence unconsumed) challenges for that address at the same
time: starting from the empty map, at most one entry per address exists,
so at most one live challenge.  Issuing while a live one exists either
returns it unchanged or replaces it via a single `Map.set`. -/
theorem C5_at_most_one_live_challenge
    (vd : List Nat → List Nat → List Nat → Bool)
    (ops : List AuthOp) (a : String) (now : Nat) :
    liveCount (runOps vd [] ops) a now ≤ 1 :=
  Nat.le_trans (liveCount_le_countKey (runOps vd [] ops) a now)
    (countKey_le_one (runOps vd [] ops) a
      (runOps_keys_nodup vd ops [] List.nodup_nil))

/-- C1: in the auth-nonce.ts verify handler a correctly signed submission
succeeds at most once: after a successful verification the challenge
record for the address is deleted from the store, and a second submission
with the same signature and nonce (at any later time) fails with
`NonceNotFound` and leaves the store unchanged. -/
theorem C1_submit_response_at_most_once
    (vd : List Nat → List Nat → List Nat → Bool)
    (store store2 : NonceStore) (now now2 : Nat) (a s n : String)
    (h : verifyNonce vd store now a s n = (store2, VerifyResult.success)) :
    JsMap.get store2 a = none ∧
    verifyNonce vd store2 now2 a s n = (store2, VerifyResult.nonceNotFound) := by
  unfold verifyNonce at h ⊢
  cases hpk : solanaPubkeyBytes a with
  | none => simp only [hpk] at h; simp at h
  | some pub =>
    cases hget : JsMap.get store a with
    | none => simp only [hpk, hget] at h; simp at h
    | some stored =>
      simp only [hpk, hget] at h
      by_cases hexp : stored.expiresAt < now
      · rw [if_pos hexp] at h; simp at h
      · rw [if_neg hexp] at h
        by_cases hn : stored.nonce = n
        · rw [if_pos hn] at h
          cases hsig : b58decode s with
          | none => simp only [hsig] at h; simp at h
          | some sig =>
            simp only [hsig] at h
            by_cases hvd : vd (utf8Bytes n) sig pub = true
            · rw [if_pos hvd] at h
              have hst : store2 = JsMap.delete store a := by
                have h1 := congrArg Prod.fst h
                simpa using h1.symm
              subst hst
              refine ⟨JsMap.get_delete_self store a, ?_⟩
              simp only [hpk, JsMap.get_delete_self store a]
            · rw [if_neg hvd] at h; simp at h
        · rw [if_neg hn] at h; simp at h

/-- C1 witness: a concrete successful verification against the system
program address with an accepting verifier oracle, then the replay. -/
theorem C1_submit_response_at_most_once_witness :
    JsMap.get ([] : NonceStore) A32 = none ∧
    verifyNonce (fun _ _ _ => true) [] 60 A32 SIG64 "n"
      = ([], VerifyResult.nonceNotFound) :=
  C1_submit_response_at_most_once (fun _ _ _ => true)
    [(A32, ⟨"n", 100⟩)] [] 50 60 A32 SIG64 "n" (by decide)

/-- C2 counterexample: in the auth-nonce.ts verify handler the nonce
lookup succeeds, the supplied nonce matches a live challenge, the
signature check fails (rejecting verifier oracle), and yet the store
still holds the challenge afterwards — the challenge is NOT consumed
before signature verification, contradicting the claim that after any
submission whose nonce lookup succeeded the store no longer holds a
challenge for the address. -/
theorem C2_consume_before_verify_counterexample :
    verifyNonce (fun _ _ _ => false) [(A32, ⟨"n", 100⟩)] 50 A32 SIG64 "n"
      = ([(A32, ⟨"n", 100⟩)], VerifyResult.invalidSignature) ∧
    JsMap.get [(A32, (⟨"n", 100⟩ : NonceRec))] A32 = some ⟨"n", 100⟩ := by
  decide

/-- C2 amended: the auth-nonce.ts verify handler consumes the stored
challenge only after signature verification succeeds; a submission whose
signature check fails leaves the store completely unchanged, so the
challenge stays live and the same challenge can be retried. -/
theorem C2_failed_signature_leaves_store_unchanged
    (vd : List Nat → List Nat → List Nat → Bool)
    (store store2 : NonceStore) (now : Nat) (a s n : String)
    (h : verifyNonce vd store now a s n = (store2, VerifyResult.invalidSignature)) :
    store2 = store := by
  unfold verifyNonce at h
  cases hpk : solanaPubkeyBytes a with
  | none => simp only [hpk] at h; simp at h
  | some pub =>
    cases hget : JsMap.get store a with
    | none => simp only [hpk, hget] at h; simp at h
    | some stored =>
      simp only [hpk, hget] at h
      by_cases hexp : stored.expiresAt < now
      · rw [if_pos hexp] at h; simp at h
      · rw [if_neg hexp] at h
        by_cases hn : stored.nonce = n
        · rw [if_pos hn] at h
          cases hsig : b58decode s with
          | none => simp only [hsig] at h; simp at h
          | some sig =>
            simp only [hsig] at h
            by_cases hvd : vd (utf8Bytes n) sig pub = true
            · rw [if_pos hvd] at h; simp at h
            · rw [if_neg hvd] at h; simp at h; exact h.symm
        · rw [if_neg hn] at h; simp at h

/-- C2 amended witness: the concrete failed-signature run of the
counterexample satisfies the hypothesis of the amended theorem. -/
theorem C2_failed_signature_leaves_store_unchanged_witness :
    ([(A32, (⟨"n", 100⟩ : NonceRec))] : NonceStore) = [(A32, ⟨"n", 100⟩)] :=
  C2_failed_signature_leaves_store_unchanged (fun _ _ _ => false)
    [(A32, ⟨"n", 100⟩)] [(A32, ⟨"n", 100⟩)] 50 A32 SIG64 "n" (by decide)

/-- C6 counterexample: at `now = expiresAt` (so `now >= expiresAt` as the
claim requires) the auth-nonce.ts verify handler does NOT fail with
`NonceExpired`: its check is the strict `rec.expiresAt < Date.now()`
(line 88), so a correctly signed submission at the expiry instant
succeeds and consumes the challenge. -/
theorem C6_expiry_boundary_counterexample :
    verifyNonce (fun _ _ _ => true) [(A32, ⟨"n", 100⟩)] 100 A32 SIG64 "n"
      = ([], VerifyResult.success) := by
  decide

/-- C6 amended: in the auth-nonce.ts verify handler, for every stored
challenge and every attempt at a time `now` STRICTLY after `expiresAt`,
the submission fails with `NonceExpired` regardless of the supplied
nonce, signature, and verifier behaviour, and the expired record is
dropped from the store as part of that failing attempt; at
`now = expiresAt` the challenge is still treated as live. -/
theorem C6_expired_fails_and_drops
    (vd : List Nat → List Nat → List Nat → Bool)
    (store : NonceStore) (now : Nat) (a s n : String)
    (pub : List Nat) (stored : NonceRec)
    (hpk : solanaPubkeyBytes a = some pub)
    (hget : JsMap.get store a = some stored)
    (hexp : stored.expiresAt < now) :
    verifyNonce vd store now a s n = (JsMap.delete store a, VerifyResult.nonceExpired) ∧
    JsMap.get (JsMap.delete store a) a = none := by
  refine ⟨?_, JsMap.get_delete_self store a⟩
  unfold verifyNonce
  simp only [hpk, hget, if_pos hexp]

/-- C6 amended witness: a concrete attempt one millisecond after expiry,
with an accepting verifier oracle, fails with `NonceExpired` and drops
the record. -/
theorem C6_expired_fails_and_drops_witness :
    verifyNonce (fun _ _ _ => true) [(A32, ⟨"n", 100⟩)] 101 A32 SIG64 "n"
      = (JsMap.delete [(A32, ⟨"n", 100⟩)] A32, VerifyResult.nonceExpired) ∧
    JsMap.get (JsMap.delete [(A32, (⟨"n", 100⟩ : NonceRec))] A32) A32 = none :=
  C6_expired_fails_and_drops (fun _ _ _ => true) [(A32, ⟨"n", 100⟩)] 101 A32 SIG64 "n"
    (List.replicate 32 0) ⟨"n", 100⟩ (by decide) (by decide) (by decide)

/-- C8: in the auth-nonce.ts verify handler, submitting a nonce value that
differs from the stored one for a live challenge fails with
`NonceMismatch` and leaves the store unchanged, and a subsequent
submission carrying the correct stored value (with a signature the
verifier accepts) still succeeds. -/
theorem C8_mismatch_keeps_challenge_live
    (vd : List Nat → List Nat → List Nat → Bool)
    (store : NonceStore) (now : Nat) (a s s2 n : String)
    (pub sig2 : List Nat) (stored : NonceRec)
    (hpk : solanaPubkeyBytes a = some pub)
    (hget : JsMap.get store a = some stored)
    (hexp : ¬ stored.expiresAt < now)
    (hn : ¬ stored.nonce = n)
    (hsig : b58decode s2 = some sig2)
    (hvd : vd (utf8Bytes stored.nonce) sig2 pub = true) :
    verifyNonce vd store now a s n = (store, VerifyResult.nonceMismatch) ∧
    verifyNonce vd store now a s2 stored.nonce = (JsMap.delete store a, VerifyResult.success) := by
  constructor
  · unfold verifyNonce
    simp only [hpk, hget, if_neg hexp, if_neg hn]
  · unfold verifyNonce
    simp only [hpk, hget, if_neg hexp, hsig, if_pos hvd]
    simp

/-- C8 witness: a concrete mismatching submission followed by the correct
one against the same untouched store. -/
theorem C8_mismatch_keeps_challenge_live_witness :
    verifyNonce (fun _ _ _ => true) [(A32, ⟨"good", 100⟩)] 50 A32 SIG64 "bad"
      = ([(A32, ⟨"good", 100⟩)], VerifyResult.nonceMismatch) ∧
    verifyNonce (fun _ _ _ => true) [(A32, ⟨"good", 100⟩)] 50 A32 SIG64
        (NonceRec.mk "good" 100).nonce
      = (JsMap.delete [(A32, ⟨"good", 100⟩)] A32, VerifyResult.success) :=
  C8_mismatch_keeps_challenge_live (fun _ _ _ => true)
    [(A32, ⟨"good", 100⟩)] 50 A32 SIG64 SIG64 "bad"
    (List.replicate 32 0) (List.replicate 64 0) ⟨"good", 100⟩
    (by decide) (by decide) (by decide) (by decide) (by decide) (by decide)

/-- C4 counterexample: the server.ts `GET /auth/nonce` handler (one of the
nonce-issuance implementations the claim covers) returns a freshly
generated `randomUUID()` nonce on every request: two requests for the
same wallet within the TTL and with no verification in between receive
the two distinct fresh values, not the same nonce. -/
theorem C4_idempotent_reissue_counterexample :
    (serverNonceHandler "FST" "w1" "5f2a09aa-1111-4ccc-9d71-000000000001" "t1").status = 200 ∧
    (serverNonceHandler "FST" "w1" "9c41b2cd-2222-4ddd-8e82-000000000002" "t2").status = 200 ∧
    (serverNonceHandler "FST" "w1" "5f2a09aa-1111-4ccc-9d71-000000000001" "t1").nonce
      ≠ (serverNonceHandler "FST" "w1" "9c41b2cd-2222-4ddd-8e82-000000000002" "t2").nonce := by
  decide

/-- C4 amended: the Map-based auth-nonce.ts `POST /auth/nonce` handler is
idempotent within TTL — after an issue that answered `nonce`, any second
issue for the same address performed while the stored challenge is still
unexpired returns the very same nonce and leaves the store unchanged —
while the server.ts and routes/auth.ts issuance handlers instead return a
freshly generated nonce on every request. -/
theorem C4_map_handler_idempotent_reissue
    (store store2 : NonceStore) (now now2 : Nat) (a f f2 n1 : String)
    (stored : NonceRec)
    (h1 : issueNonce store now a f = (store2, IssueResult.ok n1))
    (h2 : JsMap.get store2 a = some stored)
    (h3 : now2 < stored.expiresAt) :
    stored.nonce = n1 ∧ issueNonce store2 now2 a f2 = (store2, IssueResult.ok n1) := by
  unfold issueNonce at h1
  by_cases ha : a = ""
  · rw [if_pos ha] at h1; simp at h1
  · rw [if_neg ha] at h1
    by_cases hv : (solanaPubkeyBytes a).isNone
    · rw [if_pos hv] at h1; simp at h1
    · rw [if_neg hv] at h1
      have hnonce : stored.nonce = n1 := by
        cases hget : JsMap.get store a with
        | none =>
          simp only [hget] at h1
          simp at h1
          obtain ⟨hst, hn⟩ := h1
          rw [← hst, JsMap.get_set_self] at h2
          cases h2
          exact hn
        | some existing =>
          simp only [hget] at h1
          by_cases hfr : existing.expiresAt > now
          · rw [if_pos hfr] at h1
            simp at h1
            obtain ⟨hst, hn⟩ := h1
            rw [← hst, hget] at h2
            cases h2
            exact hn
          · rw [if_neg hfr] at h1
            simp at h1
            obtain ⟨hst, hn⟩ := h1
            rw [← hst, JsMap.get_set_self] at h2
            cases h2
            exact hn
      refine ⟨hnonce, ?_⟩
      unfold issueNonce
      rw [if_neg ha, if_neg hv]
      simp only [h2]
      rw [if_pos h3, hnonce]

/-- C4 amended witness: issue to an empty store, then re-issue within the
TTL and observe the same nonce and the unchanged store. -/
theorem C4_map_handler_idempotent_reissue_witness :
    (NonceRec.mk "n1" 300000).nonce = "n1" ∧
    issueNonce [(A32, ⟨"n1", 300000⟩)] 100 A32 "n2"
      = ([(A32, ⟨"n1", 300000⟩)], IssueResult.ok "n1") :=
  C4_map_handler_idempotent_reissue [] [(A32, ⟨"n1", 300000⟩)] 0 100 A32 "n1" "n2" "n1"
    ⟨"n1", 300000⟩ (by decide) (by decide) (by decide)

/-- C9 counterexample: the routes/auth.ts `GET /auth/nonce` handler (one
of the RequestChallenge implementations the claim covers) accepts the
malformed address `0!` — not base58, hence not a valid public-key
encoding, as the first conjunct shows — answers 200 with a challenge,
and stores it in the session table instead of failing with
`InvalidAddress`. -/
theorem C9_invalid_address_counterexample :
    solanaPubkeyBytes "0!" = none ∧
    part003Nonce [] 0 "0!" "ab12"
      = ([("nonce:0!", ⟨"0!", "Sign in to FST\nAddress: 0!\nNonce: ab12\nTS:0", 300000⟩)],
         P3NonceResult.ok "Sign in to FST\nAddress: 0!\nNonce: ab12\nTS:0") ∧
    JsMap.get [("nonce:0!",
        (⟨"0!", "Sign in to FST\nAddress: 0!\nNonce: ab12\nTS:0", 300000⟩ : SessionRec))]
        "nonce:0!"
      = some ⟨"0!", "Sign in to FST\nAddress: 0!\nNonce: ab12\nTS:0", 300000⟩ := by
  decide

/-- C9 amended: the Map-based auth-nonce.ts `POST /auth/nonce` handler
does reject every syntactically malformed (non-empty) address with
`Invalid walletAddress` and creates no challenge, leaving the store
unchanged; the server.ts and routes/auth.ts issuance handlers accept any
non-empty string without public-key validation. -/
theorem C9_map_handler_rejects_invalid_address
    (store : NonceStore) (now : Nat) (a f : String)
    (ha : ¬ a = "") (hpk : solanaPubkeyBytes a = none) :
    issueNonce store now a f = (store, IssueResult.invalidAddress) := by
  unfold issueNonce
  rw [if_neg ha, if_pos (by rw [hpk]; rfl)]

/-- C9 amended witness: the malformed address `0!` is rejected by the
Map-based handler with no store change. -/
theorem C9_map_handler_rejects_invalid_address_witness :
    issueNonce [] 0 "0!" "x" = ([], IssueResult.invalidAddress) :=
  C9_map_handler_rejects_invalid_address [] 0 "0!" "x" (by decide) (by decide)

/-- C10 counterexample: the routes/auth.ts `POST /auth/verify` handler
answers an invalid signature with HTTP 400 (`invalid signature`,
line 150), not 401: here every nonce check passes (live matching
challenge), the base58 signature decodes, and the verifier oracle rejects
it — the response status is 400, indistinguishable from the input and
protocol-state errors. -/
theorem C10_invalid_signature_status_counterexample :
    part003Verify (fun _ _ _ => false) (fun _ => none) []
        [("nonce:" ++ A32, ⟨A32, "n", 100⟩)] 50 A32 "n" "" "1"
      = ([("nonce:" ++ A32, ⟨A32, "n", 100⟩)], P3VerifyResult.err 400 "invalid signature") := by
  decide

/-- C10 amended: the auth-nonce.ts and server.ts verify handlers report a
failed signature check as an authentication error with HTTP 401
(`Invalid signature`), distinct from the 400 statuses of all input and
protocol-state errors, while the routes/auth.ts handler reports it
with 400. -/
theorem C10_invalid_signature_is_401
    (vd : List Nat → List Nat → List Nat → Bool)
    (store : NonceStore) (now : Nat) (a s n : String)
    (pub sig : List Nat) (stored : NonceRec)
    (hpk : solanaPubkeyBytes a = some pub)
    (hget : JsMap.get store a = some stored)
    (hexp : ¬ stored.expiresAt < now)
    (hn : stored.nonce = n)
    (hsig : b58decode s = some sig)
    (hvd : vd (utf8Bytes n) sig pub = false)
    (cv : String → Option NonceCookieData) (db : String → Option (List Nat))
    (vd2 : List Nat → List Nat → List Nat → Bool)
    (req : ServerVerifyReq) (m : String) (sig2 pk2 : List Nat)
    (hw : ¬ req.walletAddress = "") (hck : req.nonceCookie = none)
    (hm : req.bodyMessage = some m) (hm0 : ¬ m = "")
    (hb64 : req.signatureBase64 = "") (hs58 : ¬ req.signatureBase58 = "")
    (hdec : b58decode req.signatureBase58 = some sig2)
    (hlen : ¬ sig2.length < 64)
    (hpk2 : b58decode req.walletAddress = some pk2)
    (hvd2 : vd2 (utf8Bytes m) sig2 pk2 = false) :
    verifyNonce vd store now a s n = (store, VerifyResult.invalidSignature) ∧
    VerifyResult.httpStatus VerifyResult.invalidSignature = 401 ∧
    VerifyResult.httpStatus VerifyResult.badRequest = 400 ∧
    VerifyResult.httpStatus VerifyResult.nonceNotFound = 400 ∧
    VerifyResult.httpStatus VerifyResult.nonceExpired = 400 ∧
    VerifyResult.httpStatus VerifyResult.nonceMismatch = 400 ∧
    serverVerify cv db vd2 req
      = ⟨401, some "Invalid signature", none, true, none⟩ := by
  refine ⟨?_, rfl, rfl, rfl, rfl, rfl, ?_⟩
  · unfold verifyNonce
    simp only [hpk, hget, if_neg hexp, if_pos hn, hsig, hvd]
    simp
  · unfold serverVerify
    rw [if_neg hw]
    have hmsg : resolveMessage cv req = Except.ok m := by
      unfold resolveMessage bodyMsgOrErr
      rw [hck, hm]
      simp [if_neg hm0]
    have hsg : decodeSig db req = Except.ok sig2 := by
      unfold decodeSig
      rw [if_pos hb64, if_neg hs58, hdec]
    rw [hmsg, hsg]
    simp only [if_neg hlen, hpk2, hvd2]
    simp

/-- C10 amended witness: concrete invalid-signature submissions against
both handlers, with rejecting verifier oracles. -/
theorem C10_invalid_signature_is_401_witness :
    verifyNonce (fun _ _ _ => false) [(A32, ⟨"n", 100⟩)] 50 A32 SIG64 "n"
      = ([(A32, ⟨"n", 100⟩)], VerifyResult.invalidSignature) ∧
    VerifyResult.httpStatus VerifyResult.invalidSignature = 401 ∧
    VerifyResult.httpStatus VerifyResult.badRequest = 400 ∧
    VerifyResult.httpStatus VerifyResult.nonceNotFound = 400 ∧
    VerifyResult.httpStatus VerifyResult.nonceExpired = 400 ∧
    VerifyResult.httpStatus VerifyResult.nonceMismatch = 400 ∧
    serverVerify (fun _ => none) (fun _ => none) (fun _ _ _ => false)
        ⟨"1", SIG64, "", some "m", none⟩
      = ⟨401, some "Invalid signature", none, true, none⟩ :=
  C10_invalid_signature_is_401 (fun _ _ _ => false)
    [(A32, ⟨"n", 100⟩)] 50 A32 SIG64 "n"
    (List.replicate 32 0) (List.replicate 64 0) ⟨"n", 100⟩
    (by decide) (by decide) (by decide) (by decide) (by decide) (by decide)
    (fun _ => none) (fun _ => none) (fun _ _ _ => false)
    ⟨"1", SIG64, "", some "m", none⟩ "m" (List.replicate 64 0) [0]
    (by decide) (by decide) (by decide) (by decide) (by decide) (by decide)
    (by decide) (by decide) (by decide) (by decide)

/-- C3: in the server.ts verify endpoint, a request with no nonce cookie
and a caller-chosen body message is accepted whenever the signature
verifies against the base58-decoded wallet address: the handler verifies
exactly the caller-supplied message (`messageUsed = m`), issues a 30-day
auth token, consults no server-issued challenge (the handler reads and
writes no challenge store — `serverVerify` is a pure function of the
request), and consequently replaying the identical request succeeds
again. -/
theorem C3_cookieless_body_message_replayable
    (cv : String → Option NonceCookieData) (db : String → Option (List Nat))
    (vd : List Nat → List Nat → List Nat → Bool)
    (req : ServerVerifyReq) (m : String) (sig pk : List Nat)
    (hw : ¬ req.walletAddress = "") (hck : req.nonceCookie = none)
    (hm : req.bodyMessage = some m) (hm0 : ¬ m = "")
    (hb64 : req.signatureBase64 = "") (hs58 : ¬ req.signatureBase58 = "")
    (hdec : b58decode req.signatureBase58 = some sig)
    (hlen : ¬ sig.length < 64)
    (hpk : b58decode req.walletAddress = some pk)
    (hvd : vd (utf8Bytes m) sig pk = true) :
    serverVerify cv db vd req = ⟨200, none, some m, true, some 30⟩ ∧
    serverVerifySeq cv db vd [req, req]
      = [⟨200, none, some m, true, some 30⟩, ⟨200, none, some m, true, some 30⟩] := by
  have hmain : serverVerify cv db vd req = ⟨200, none, some m, true, some 30⟩ := by
    unfold serverVerify
    rw [if_neg hw]
    have hmsg : resolveMessage cv req = Except.ok m := by
      unfold resolveMessage bodyMsgOrErr
      rw [hck, hm]
      simp [if_neg hm0]
    have hsg : decodeSig db req = Except.ok sig := by
      unfold decodeSig
      rw [if_pos hb64, if_neg hs58, hdec]
    rw [hmsg, hsg]
    simp only [if_neg hlen, hpk, hvd]
    simp
  exact ⟨hmain, by simp only [serverVerifySeq, List.map]; rw [hmain]⟩

/-- C3 witness: a concrete cookieless request whose caller-chosen message
is accepted, with the replayed batch succeeding twice. -/
theorem C3_cookieless_body_message_replayable_witness :
    serverVerify (fun _ => none) (fun _ => none) (fun _ _ _ => true)
        ⟨"1", SIG64, "", some "pay me", none⟩
      = ⟨200, none, some "pay me", true, some 30⟩ ∧
    serverVerifySeq (fun _ => none) (fun _ => none) (fun _ _ _ => true)
        [⟨"1", SIG64, "", some "pay me", none⟩, ⟨"1", SIG64, "", some "pay me", none⟩]
      = [⟨200, none, some "pay me", true, some 30⟩, ⟨200, none, some "pay me", true, some 30⟩] :=
  C3_cookieless_body_message_replayable (fun _ => none) (fun _ => none) (fun _ _ _ => true)
    ⟨"1", SIG64, "", some "pay me", none⟩ "pay me" (List.replicate 64 0) [0]
    (by decide) (by decide) (by decide) (by decide) (by decide) (by decide)
    (by decide) (by decide) (by decide) (by decide)

/-- C7 counterexample: the server.ts length check is `sig.length < 64`
(line 232), not an equality check against 64, and the utils/solana.ts
helpers have no length check at all: a base58 signature decoding to 65
bytes (first conjunct) passes the check and IS handed to the detached
verifier (`calledVerifier = true`), contradicting the claim that only
64-byte signatures are ever passed to it. -/
theorem C7_signature_length_counterexample :
    b58decode SIG65 = some (List.replicate 65 0) ∧
    serverVerify (fun _ => none) (fun _ => none) (fun _ _ _ => true)
        ⟨"1", SIG65, "", some "m", none⟩
      = ⟨200, none, some "m", true, some 30⟩ := by
  decide

/-- C7 amended: the server.ts verify handler rejects every supplied
signature whose decoded byte length is less than 64 with the
malformed-input error `Signature length invalid` before invoking the
detached-signature verifier; decoded signatures of length 64 or more
(including lengths above 64) are passed to the verifier, and the
utils/solana.ts helpers apply no length check. -/
theorem C7_short_signature_rejected_before_verify
    (cv : String → Option NonceCookieData) (db : String → Option (List Nat))
    (vd : List Nat → List Nat → List Nat → Bool)
    (req : ServerVerifyReq) (m : String) (sig : List Nat)
    (hw : ¬ req.walletAddress = "") (hck : req.nonceCookie = none)
    (hm : req.bodyMessage = some m) (hm0 : ¬ m = "")
    (hb64 : req.signatureBase64 = "") (hs58 : ¬ req.signatureBase58 = "")
    (hdec : b58decode req.signatureBase58 = some sig)
    (hlen : sig.length < 64) :
    serverVerify cv db vd req = mkErr 400 "Signature length invalid" ∧
    (serverVerify cv db vd req).calledVerifier = false := by
  have hmain : serverVerify cv db vd req = mkErr 400 "Signature length invalid" := by
    unfold serverVerify
    rw [if_neg hw]
    have hmsg : resolveMessage cv req = Except.ok m := by
      unfold resolveMessage bodyMsgOrErr
      rw [hck, hm]
      simp [if_neg hm0]
    have hsg : decodeSig db req = Except.ok sig := by
      unfold decodeSig
      rw [if_pos hb64, if_neg hs58, hdec]
    rw [hmsg, hsg]
    simp only [if_pos hlen]
  exact ⟨hmain, by rw [hmain]; rfl⟩

/-- C7 amended witness: a one-byte base58 signature is rejected with the
length error without the verifier being invoked. -/
theorem C7_short_signature_rejected_before_verify_witness :
    serverVerify (fun _ => none) (fun _ => none) (fun _ _ _ => true)
        ⟨"1", "1", "", some "m", none⟩
      = mkErr 400 "Signature length invalid" ∧
    (serverVerify (fun _ => none) (fun _ => none) (fun _ _ _ => true)
        ⟨"1", "1", "", some "m", none⟩).calledVerifier = false :=
  C7_short_signature_rejected_before_verify (fun _ => none) (fun _ => none)
    (fun _ _ _ => true) ⟨"1", "1", "", some "m", none⟩ "m" [0]
    (by decide) (by decide) (by decide) (by decide) (by decide) (by decide)
    (by decide) (by decide)
